import Mathlib

/-!
Shallow embedding of the hermes-pgx v2 core (src/v2 of the repository):
the pool/transaction adapters (db.go, tx.go), the advisory-lock
subsystem (locks.go) and the timeout-context helper (db.go).

The external pgx driver and the Go standard library context package are
collaborators, not code of this repository; where their behaviour decides
a claim they are modelled from the specification and from the doc
comments in the source, and each such definition says so.

Driver responses (checkout results, query results, lock availability) are
passed in as explicit oracle arguments, and every side effect the Go code
performs against the driver is recorded in an event trace, so that the
theorems can speak about which SQL is executed and whether a checked-out
pool connection is ever returned to the pool.
-/

namespace Hermes

/-- Errors visible at the adapter boundary.  A `driver e` value is an
opaque error produced by the pgx driver or the pool (its payload is the
driver message), `txClosed` is the driver value pgx.ErrTxClosed, and
`locked` is the package sentinel ErrLocked from locks.go. -/
inductive Err where
  | driver (msg : String)
  | txClosed
  | locked
  deriving DecidableEq, Repr

/-- Side effects executed against the driver, recorded in program order.
`acquire c` is a successful pool checkout of connection `c`
(pgxpool.Pool.Acquire), `release c` is returning connection `c` to the
pool (pgxpool.Conn.Release), `exec c sql` is Exec of `sql` on connection
`c`, and `query c sql` is QueryRow of `sql` on connection `c`. -/
inductive Event where
  | acquire (conn : Nat)
  | release (conn : Nat)
  | exec (conn : Nat) (sql : String)
  | query (conn : Nat) (sql : String)
  deriving DecidableEq, Repr

/-- State of the process-wide pgxpool.Pool: whether the pool has been
shut down (pgxpool.Pool.Close) and how many connections are currently
checked out.  Abstracted to what the claims observe. -/
structure Pool where
  closed : Bool
  checkedOut : Nat
  deriving DecidableEq, Repr

/-- The hermes DB adapter (src/v2/db.go): wraps the pool and carries the
configured default timeout (a time.Duration, in nanoseconds). -/
structure DB where
  pool : Pool
  defaultTimeout : Nat
  deriving DecidableEq, Repr

/-- DB.Commit (src/v2/db.go): the body is return nil; nothing on the
receiver or the pool is touched. -/
def DB.Commit (db : DB) : Option Err × DB :=
  (none, db)

/-- DB.Rollback (src/v2/db.go): the body is return nil. -/
def DB.Rollback (db : DB) : Option Err × DB :=
  (none, db)

/-- DB.Close (src/v2/db.go): the body is return nil; in particular it
never calls pgxpool.Pool.Close, so the pool (including its closed flag)
is untouched. -/
def DB.Close (db : DB) : Option Err × DB :=
  (none, db)

/-- Modelled from the spec: pgxpool.Pool.Close, the separate explicit
pool shutdown that lives outside the hermes.Conn interface.  Included
only to make the pool closed flag meaningful. -/
def Pool.Shutdown (p : Pool) : Pool :=
  { p with closed := true }

/-! ## Advisory locks (src/v2/locks.go) -/

/-- SessionAdvisoryLock (src/v2/locks.go): holds the lock id and the
dedicated raw connection (*pgx.Conn, here its id); the conn field is set
to none once the lock has been released.  The sync.Mutex that guards
Release serialises calls, so the embedding treats Release invocations as
sequential. -/
structure SessionAdvisoryLock where
  ID : Nat
  conn : Option Nat
  deriving DecidableEq, Repr

/-- SessionAdvisoryLock.Release (src/v2/locks.go lines 27-43), one call
under the mutex.  `execRes` is the driver outcome of the unlock Exec.
If the conn field is nil the lock was already released and the call
returns nil at once.  Otherwise the unlock statement runs; on error the
error is returned and the conn field is left in place, on success the
conn field is cleared.  Note the Go code never calls
pgxpool.Conn.Release, so no `Event.release` is ever emitted. -/
def SessionAdvisoryLock.Release (lock : SessionAdvisoryLock)
    (execRes : Except String Unit) :
    Except Err Unit × SessionAdvisoryLock × List Event :=
  match lock.conn with
  | none => (.ok (), lock, [])
  | some c =>
    match execRes with
    | .error e => (.error (.driver e), lock, [.exec c "SELECT pg_advisory_unlock($1)"])
    | .ok _ => (.ok (), { lock with conn := none }, [.exec c "SELECT pg_advisory_unlock($1)"])

/-- DB.Lock (src/v2/locks.go lines 47-65): checks out a dedicated
connection (`acquireRes` is the pool outcome, yielding the conn id),
runs the blocking session advisory lock (`execRes` is the driver outcome
of that Exec), and on success returns a SessionAdvisoryLock holding the
raw connection.  No pgxpool.Conn.Release appears on any path. -/
def DB.Lock (acquireRes : Except String Nat) (execRes : Except String Unit)
    (id : Nat) : Except Err SessionAdvisoryLock × List Event :=
  match acquireRes with
  | .error e => (.error (.driver e), [])
  | .ok conn =>
    match execRes with
    | .error e => (.error (.driver e), [.acquire conn, .exec conn "SELECT pg_advisory_lock($1)"])
    | .ok _ =>
      (.ok ⟨id, some conn⟩, [.acquire conn, .exec conn "SELECT pg_advisory_lock($1)"])

/-- DB.TryLock (src/v2/locks.go lines 69-93): checks out a dedicated
connection, runs the non-blocking try-acquire query and scans the
boolean result (`scanRes`).  A scan error is returned as-is; a false
result returns ErrLocked; true yields the lock.  No pgxpool.Conn.Release
appears on any path, the failed-try paths included. -/
def DB.TryLock (acquireRes : Except String Nat) (scanRes : Except String Bool)
    (id : Nat) : Except Err SessionAdvisoryLock × List Event :=
  match acquireRes with
  | .error e => (.error (.driver e), [])
  | .ok conn =>
    match scanRes with
    | .error e =>
      (.error (.driver e), [.acquire conn, .query conn "SELECT pg_try_advisory_lock($1)"])
    | .ok available =>
      if !available then
        (.error .locked, [.acquire conn, .query conn "SELECT pg_try_advisory_lock($1)"])
      else
        (.ok ⟨id, some conn⟩, [.acquire conn, .query conn "SELECT pg_try_advisory_lock($1)"])

/-- TxAdvisoryLock (src/v2/locks.go): placeholder lock for transactional
advisory locks; holds only the id. -/
structure TxAdvisoryLock where
  ID : Nat
  deriving DecidableEq, Repr

/-- TxAdvisoryLock.Release (src/v2/locks.go lines 102-104): does nothing
and returns nil; no SQL is executed. -/
def TxAdvisoryLock.Release (_ : TxAdvisoryLock) : Except Err Unit × List Event :=
  (.ok (), [])

/-- Tx.Lock (src/v2/locks.go lines 109-121): runs the blocking
transaction advisory lock on the transaction connection `txConn` (the
transaction already owns a connection; nothing is checked out). -/
def Tx.Lock (txConn : Nat) (execRes : Except String Unit) (id : Nat) :
    Except Err TxAdvisoryLock × List Event :=
  match execRes with
  | .error e => (.error (.driver e), [.exec txConn "SELECT pg_advisory_xact_lock($1)"])
  | .ok _ => (.ok ⟨id⟩, [.exec txConn "SELECT pg_advisory_xact_lock($1)"])

/-- Tx.TryLock (src/v2/locks.go lines 125-143): runs the non-blocking
transaction try-acquire on the transaction connection and scans the
boolean; false yields ErrLocked. -/
def Tx.TryLock (txConn : Nat) (scanRes : Except String Bool) (id : Nat) :
    Except Err TxAdvisoryLock × List Event :=
  match scanRes with
  | .error e => (.error (.driver e), [.query txConn "SELECT pg_try_advisory_xact_lock($1)"])
  | .ok available =>
    if !available then
      (.error .locked, [.query txConn "SELECT pg_try_advisory_xact_lock($1)"])
    else
      (.ok ⟨id⟩, [.query txConn "SELECT pg_try_advisory_xact_lock($1)"])

/-! ## Transaction adapter (src/v2/tx.go) -/

/-- Modelled from the spec: the external pgx driver transaction handle
(pgx.Tx), which is not code of this repository.  Per the spec (driver
collaborator, already-closed absorption paragraph) and the doc comments
on Close in src/v2/tx.go and src/v2/interface.go, the driver reports
ErrTxClosed from Commit or Rollback on a transaction that is already
finalised, instead of re-executing anything; a first Commit commits and
closes the handle, a first Rollback rolls back and closes it. -/
structure PgxTx where
  closed : Bool
  committed : Bool
  deriving DecidableEq, Repr

/-- Modelled from the spec: pgx.Tx.Commit on a driver transaction. -/
def PgxTx.Commit (t : PgxTx) : Except Err Unit × PgxTx :=
  if t.closed then (.error .txClosed, t)
  else (.ok (), { closed := true, committed := true })

/-- Modelled from the spec: pgx.Tx.Rollback on a driver transaction; on
an already-closed handle it returns ErrTxClosed and changes nothing (in
particular a commit already performed is not undone). -/
def PgxTx.Rollback (t : PgxTx) : Except Err Unit × PgxTx :=
  if t.closed then (.error .txClosed, t)
  else (.ok (), { closed := true, committed := false })

/-- Tx (src/v2/tx.go, as constructed by DB.Begin in src/v2/db.go): wraps
the embedded pgx.Tx handle and the inherited default timeout. -/
structure Tx where
  tx : PgxTx
  defaultTimeout : Nat
  deriving DecidableEq, Repr

/-- Tx.Commit: hermes.Tx does not define Commit, so Go promotes the
embedded pgx.Tx.Commit; the driver result is returned unchanged. -/
def Tx.Commit (t : Tx) : Except Err Unit × Tx :=
  let r := t.tx.Commit
  (r.1, { t with tx := r.2 })

/-- Tx.Close (src/v2/tx.go lines 36-42): the body is
return tx.Tx.Rollback(ctx) — the driver rollback result, ErrTxClosed
included, is returned to the caller unchanged, with no absorption. -/
def Tx.Close (t : Tx) : Except Err Unit × Tx :=
  let r := t.tx.Rollback
  (r.1, { t with tx := r.2 })

/-! ## Timeout context helper (src/v2/db.go) -/

/-- Modelled from the spec: a Go context as the helper observes it — an
optional absolute deadline (nanoseconds) plus an abstract payload
standing for everything else the context carries (values, parent chain).
contextDotBackground is context.Background(): no deadline. -/
structure Ctx where
  deadline : Option Nat
  payload : Nat
  deriving DecidableEq, Repr

def contextDotBackground : Ctx :=
  { deadline := none, payload := 0 }

/-- Whether WithTimeout returned the real cancellation function of a
derived context or the package fakeCancel no-op (src/v2/db.go). -/
inductive CancelKind where
  | fake
  | real
  deriving DecidableEq, Repr

/-- Modelled from the spec: the Go standard library context.WithTimeout,
deriving a child whose deadline is now + timeout (capped by the parent
deadline when the parent has one) together with its real cancellation
function.  The payload is inherited from the parent. -/
def contextDotWithTimeout (ctx : Ctx) (now timeout : Nat) : Ctx × CancelKind :=
  match ctx.deadline with
  | some pd => ({ ctx with deadline := some (min pd (now + timeout)) }, .real)
  | none => ({ ctx with deadline := some (now + timeout) }, .real)

/-- time.Second in nanoseconds, the fixed fallback timeout. -/
def timeSecond : Nat := 1000000000

/-- DB.WithTimeout (src/v2/db.go lines 94-109): substitute a background
context for a nil parent; if the context already has a deadline return
it unchanged with fakeCancel; otherwise derive a timeout context using
the configured default, falling back to one second when it is zero. -/
def DB.WithTimeout (db : DB) (now : Nat) (ctx : Option Ctx) : Ctx × CancelKind :=
  let ctx := ctx.getD contextDotBackground
  match ctx.deadline with
  | some _ => (ctx, .fake)
  | none =>
    let timeout := if db.defaultTimeout = 0 then timeSecond else db.defaultTimeout
    contextDotWithTimeout ctx now timeout

/-- Tx.WithTimeout (src/v2/db.go lines 138-153): identical logic using
the default timeout carried by the transaction. -/
def Tx.WithTimeout (tx : Tx) (now : Nat) (ctx : Option Ctx) : Ctx × CancelKind :=
  let ctx := ctx.getD contextDotBackground
  match ctx.deadline with
  | some _ => (ctx, .fake)
  | none =>
    let timeout := if tx.defaultTimeout = 0 then timeSecond else tx.defaultTimeout
    contextDotWithTimeout ctx now timeout

/-- A fresh, never-finalised driver transaction, as DB.Begin returns it
(default timeout zero for concreteness). -/
def openTx : Tx :=
  { tx := { closed := false, committed := false }, defaultTimeout := 0 }

/-- The connection ids returned to the pool (pgxpool.Conn.Release calls)
recorded in a trace. -/
def poolReturns (es : List Event) : List Nat :=
  es.filterMap fun e =>
    match e with
    | .release c => some c
    | _ => none

/-- The SQL statements executed or queried in a trace, in order. -/
def sqlStatements (es : List Event) : List String :=
  es.filterMap fun e =>
    match e with
    | .exec _ s => some s
    | .query _ s => some s
    | _ => none

/-! ## Claims -/

/-- C1 counterexample: on a fresh transaction, Commit succeeds, yet the
subsequent Close does not return success — it surfaces the driver
ErrTxClosed value instead of absorbing it. -/
theorem C1_close_after_commit_counterexample :
    (Tx.Commit openTx).1 = .ok () ∧ ((Tx.Commit openTx).2.Close).1 ≠ .ok () := by
  refine ⟨rfl, ?_⟩
  simp [Tx.Commit, Tx.Close, PgxTx.Commit, PgxTx.Rollback, openTx]

/-- C1 (amended): Close after a successful Commit does not undo the
commit — the driver rollback on a closed transaction is a no-op and the
committed state survives — but it returns the driver ErrTxClosed error
rather than success. -/
theorem C1_close_after_commit (t : Tx) (h : t.tx.closed = false) :
    (t.Commit).1 = .ok () ∧ (t.Commit).2.tx.committed = true ∧
    ((t.Commit).2.Close).1 = .error .txClosed ∧
    ((t.Commit).2.Close).2.tx.committed = true := by
  simp [Tx.Commit, Tx.Close, PgxTx.Commit, PgxTx.Rollback, h]

/-- C1 witness: the amended statement at the fresh transaction. -/
theorem C1_close_after_commit_witness :
    openTx.tx.closed = false ∧
    ((Tx.Commit openTx).1 = .ok () ∧ (Tx.Commit openTx).2.tx.committed = true ∧
     ((Tx.Commit openTx).2.Close).1 = .error .txClosed ∧
     ((Tx.Commit openTx).2.Close).2.tx.committed = true) :=
  ⟨rfl, C1_close_after_commit openTx rfl⟩

/-- C2: DB.TryLock never returns a checked-out connection to the pool on
any path; in particular, at the failing input where the pool hands out
connection 7 and the server reports lock 42 unavailable, TryLock returns
ErrLocked with connection 7 still checked out, and likewise when the
scan fails — contradicting the no-leak claim. -/
theorem C2_trylock_leaks_connection :
    (∀ (a : Except String Nat) (s : Except String Bool) (id : Nat),
      poolReturns (DB.TryLock a s id).2 = []) ∧
    (DB.TryLock (.ok 7) (.ok false) 42).1 = .error .locked ∧
    (DB.TryLock (.ok 7) (.ok false) 42).2 =
      [.acquire 7, .query 7 "SELECT pg_try_advisory_lock($1)"] ∧
    (DB.TryLock (.ok 7) (.error "scan failed") 42).1 = .error (.driver "scan failed") ∧
    (DB.TryLock (.ok 7) (.error "scan failed") 42).2 =
      [.acquire 7, .query 7 "SELECT pg_try_advisory_lock($1)"] := by
  refine ⟨?_, rfl, rfl, rfl, rfl⟩
  intro a s id
  cases a with
  | error e => rfl
  | ok c =>
    cases s with
    | error e => rfl
    | ok b => cases b <;> rfl

/-- C3: SessionAdvisoryLock.Release never returns the dedicated
connection to the pool on any path (the lock holds only the raw pgx
connection and no pgxpool release call exists in the code); at the
concrete input it executes the advisory unlock on connection 7 and
clears the reference, but emits no pool return — contradicting the
claim that the connection is returned to the pool. -/
theorem C3_release_returns_no_connection :
    (∀ (lock : SessionAdvisoryLock) (er : Except String Unit),
      poolReturns (lock.Release er).2.2 = []) ∧
    SessionAdvisoryLock.Release ⟨42, some 7⟩ (.ok ()) =
      (.ok (), ⟨42, none⟩, [.exec 7 "SELECT pg_advisory_unlock($1)"]) := by
  refine ⟨?_, rfl⟩
  intro lock er
  match lock, er with
  | ⟨id, none⟩, _ => rfl
  | ⟨id, some c⟩, .ok _ => rfl
  | ⟨id, some c⟩, .error e => rfl

/-- C4: two sequential Release calls (the internal mutex serialises any
concurrent pair into this order) both succeed, the unlock statement is
executed exactly once by the first call, and the second call touches the
database not at all, whatever driver outcome it would have seen. -/
theorem C4_release_idempotent :
    ∀ (id c : Nat) (er2 : Except String Unit),
    (SessionAdvisoryLock.Release ⟨id, some c⟩ (.ok ())).1 = .ok () ∧
    sqlStatements (SessionAdvisoryLock.Release ⟨id, some c⟩ (.ok ())).2.2 =
      ["SELECT pg_advisory_unlock($1)"] ∧
    SessionAdvisoryLock.Release
        (SessionAdvisoryLock.Release ⟨id, some c⟩ (.ok ())).2.1 er2 =
      (.ok (), (SessionAdvisoryLock.Release ⟨id, some c⟩ (.ok ())).2.1, []) := by
  intro id c er2
  exact ⟨rfl, rfl, rfl⟩

/-- C5: Commit, Rollback and Close on the pool adapter return no error
and leave the pool state — the closed flag and the checkout count —
exactly as it was; Close through this interface never shuts the pool
down. -/
theorem C5_pool_adapter_noops :
    ∀ db : DB,
    db.Commit = (none, db) ∧ db.Rollback = (none, db) ∧ db.Close = (none, db) ∧
    (db.Close).2.pool.closed = db.pool.closed ∧
    (db.Close).2.pool.checkedOut = db.pool.checkedOut := by
  intro db
  exact ⟨rfl, rfl, rfl, rfl, rfl⟩

/-- C6: with the checkout succeeding, TryLock returns the ErrLocked
sentinel exactly when the try-acquire scan yields false (on the pool and
on the transaction variant alike); checkout and scan failures are
propagated as the driver error; and the blocking Lock never produces
ErrLocked on any driver outcome. -/
theorem C6_locked_error_discipline :
    ∀ (c id txc : Nat) (s : Except String Bool) (e : String)
      (er : Except String Unit),
    ((DB.TryLock (.ok c) s id).1 = .error .locked ↔ s = .ok false) ∧
    (DB.TryLock (.error e) s id).1 = .error (.driver e) ∧
    (DB.TryLock (.ok c) (.error e) id).1 = .error (.driver e) ∧
    ((Tx.TryLock txc s id).1 = .error .locked ↔ s = .ok false) ∧
    (DB.Lock (.error e) er id).1 = .error (.driver e) ∧
    (DB.Lock (.ok c) er id).1 ≠ .error .locked ∧
    (Tx.Lock txc er id).1 ≠ .error .locked := by
  intro c id txc s e er
  refine ⟨?_, rfl, rfl, ?_, rfl, ?_, ?_⟩
  · cases s with
    | error e => simp [DB.TryLock]
    | ok b => cases b <;> simp [DB.TryLock]
  · cases s with
    | error e => simp [Tx.TryLock]
    | ok b => cases b <;> simp [Tx.TryLock]
  · cases er <;> simp [DB.Lock]
  · cases er <;> simp [Tx.Lock]

/-- C6 witness: the discipline at a concrete instantiation. -/
theorem C6_locked_error_discipline_witness :
    ((DB.TryLock (.ok 7) (.ok false) 42).1 = .error .locked ↔
      (.ok false : Except String Bool) = .ok false) ∧
    (DB.TryLock (.error "down") (.ok false) 42).1 = .error (.driver "down") ∧
    (DB.TryLock (.ok 7) (.error "down") 42).1 = .error (.driver "down") ∧
    ((Tx.TryLock 9 (.ok false) 42).1 = .error .locked ↔
      (.ok false : Except String Bool) = .ok false) ∧
    (DB.Lock (.error "down") (.ok ()) 42).1 = .error (.driver "down") ∧
    (DB.Lock (.ok 7) (.ok ()) 42).1 ≠ .error .locked ∧
    (Tx.Lock 9 (.ok ()) 42).1 ≠ .error .locked :=
  C6_locked_error_discipline 7 42 9 (.ok false) "down" (.ok ())

/-- C7: when the supplied context already carries a deadline, both
WithTimeout variants return that very context unchanged — same deadline,
same payload — paired with the fakeCancel no-op. -/
theorem C7_withtimeout_keeps_deadline :
    ∀ (db : DB) (tx : Tx) (now d v : Nat),
    db.WithTimeout now (some ⟨some d, v⟩) = (⟨some d, v⟩, .fake) ∧
    tx.WithTimeout now (some ⟨some d, v⟩) = (⟨some d, v⟩, .fake) := by
  intro db tx now d v
  exact ⟨rfl, rfl⟩

/-- C8: with a nil parent context, WithTimeout uses the background
context as base and, since it has no deadline, returns a derived context
whose deadline is now plus the configured default — one second when the
configured duration is zero — together with the real cancellation
function. -/
theorem C8_withtimeout_nil_default :
    ∀ (db : DB) (now : Nat),
    db.WithTimeout now none =
      ({ deadline :=
           some (now + (if db.defaultTimeout = 0 then timeSecond else db.defaultTimeout)),
         payload := 0 }, .real) := by
  intro db now
  by_cases h : db.defaultTimeout = 0 <;>
    simp [DB.WithTimeout, contextDotWithTimeout, contextDotBackground, h]

/-- C9: each lock operation emits exactly its specified SQL — session
Lock/TryLock and Release on the dedicated connection, transaction
Lock/TryLock on the transaction connection — and the transactional
Release emits no statement at all and reports success. -/
theorem C9_advisory_lock_sql :
    ∀ (c txc id : Nat),
    (DB.Lock (.ok c) (.ok ()) id).2 =
      [.acquire c, .exec c "SELECT pg_advisory_lock($1)"] ∧
    (DB.TryLock (.ok c) (.ok true) id).2 =
      [.acquire c, .query c "SELECT pg_try_advisory_lock($1)"] ∧
    (SessionAdvisoryLock.Release ⟨id, some c⟩ (.ok ())).2.2 =
      [.exec c "SELECT pg_advisory_unlock($1)"] ∧
    (Tx.Lock txc (.ok ()) id).2 = [.exec txc "SELECT pg_advisory_xact_lock($1)"] ∧
    (Tx.TryLock txc (.ok true) id).2 =
      [.query txc "SELECT pg_try_advisory_xact_lock($1)"] ∧
    TxAdvisoryLock.Release ⟨id⟩ = (.ok (), []) := by
  intro c txc id
  exact ⟨rfl, rfl, rfl, rfl, rfl, rfl⟩

/-- C10: when the unlock statement fails, Release returns that driver
error and keeps the dedicated-connection reference, so a following
Release re-executes the unlock for real and only then clears the
reference. -/
theorem C10_failed_release_retains_lock :
    ∀ (id c : Nat) (e : String),
    (SessionAdvisoryLock.Release ⟨id, some c⟩ (.error e)).1 = .error (.driver e) ∧
    (SessionAdvisoryLock.Release ⟨id, some c⟩ (.error e)).2.1 = ⟨id, some c⟩ ∧
    (SessionAdvisoryLock.Release
        (SessionAdvisoryLock.Release ⟨id, some c⟩ (.error e)).2.1 (.ok ())).2.2 =
      [.exec c "SELECT pg_advisory_unlock($1)"] ∧
    (SessionAdvisoryLock.Release
        (SessionAdvisoryLock.Release ⟨id, some c⟩ (.error e)).2.1 (.ok ())).2.1.conn =
      none := by
  intro id c e
  exact ⟨rfl, rfl, rfl, rfl⟩

end Hermes
